import Mathlib

/-!
Verification of the mplex-style muxer, id allocation, reader loop and the
encrypted record layer of the libp2p-rust-impl repository, shallowly embedded
from src/muxer/src/lib.rs and src/common/src/lib.rs.

Bytes are modelled as natural numbers below 256, byte buffers as List Nat,
u32 arithmetic as Nat with explicit reduction modulo 2^32.
-/

/-- Frame types on the wire: OPEN=1, DATA=2, CLOSE=3, RESET=4
(enum FrameType in src/muxer/src/lib.rs). -/
inductive FrameType where
  | Open
  | Data
  | Close
  | Reset
deriving DecidableEq, Repr

/-- The discriminant value of each frame type (`self.t as u8`). -/
def FrameType.toByte : FrameType → Nat
  | .Open => 1
  | .Data => 2
  | .Close => 3
  | .Reset => 4

/-- A mux frame: type, 32-bit stream id, raw payload bytes
(struct Frame in src/muxer/src/lib.rs; field order as in the source). -/
structure Frame where
  t : FrameType
  stream_id : Nat
  payload : List Nat
deriving DecidableEq, Repr

/-- Decode failures (enum FrameDecodeError in src/muxer/src/lib.rs). -/
inductive FrameDecodeError where
  | TooShort
  | UnknownType (b : Nat)
  | TooLarge (n : Nat)
  | LengthMismatch (declared actual : Nat)
deriving DecidableEq, Repr

/-- `u32::to_le_bytes`: the four little-endian bytes of a 32-bit value. -/
def u32ToLe (n : Nat) : List Nat :=
  [n % 256, n / 256 % 256, n / 65536 % 256, n / 16777216 % 256]

/-- `u32::from_le_bytes`: reassemble a 32-bit value from four bytes. -/
def u32FromLe (a b c d : Nat) : Nat :=
  a + 256 * b + 65536 * c + 16777216 * d

/-- `Frame::encode`: stream_id (u32 LE), type byte, payload length (u32 LE),
then the payload bytes. -/
def Frame.encode (f : Frame) : List Nat :=
  u32ToLe f.stream_id ++ [f.t.toByte] ++ u32ToLe f.payload.length ++ f.payload

/-- The payload length declared in a buffer's header (bytes 5..9, u32 LE). -/
def declaredLen (buf : List Nat) : Nat :=
  u32FromLe (buf.getD 5 0) (buf.getD 6 0) (buf.getD 7 0) (buf.getD 8 0)

/-- `Frame::decode`: reject buffers shorter than the 9-byte header (TooShort),
then buffers whose declared payload length exceeds the remaining bytes
(LengthMismatch), then unknown type bytes (UnknownType); otherwise return the
frame and the number of bytes consumed.  The checks appear in exactly the
order of the source. -/
def Frame.decode (buf : List Nat) : Except FrameDecodeError (Frame × Nat) :=
  if buf.length < 9 then
    .error .TooShort
  else
    let stream_id := u32FromLe (buf.getD 0 0) (buf.getD 1 0) (buf.getD 2 0) (buf.getD 3 0)
    let t_raw := buf.getD 4 0
    let len := declaredLen buf
    if buf.length < 9 + len then
      .error (.LengthMismatch len (buf.length - 9))
    else
      let payload := (buf.drop 9).take len
      if t_raw = 1 then .ok (⟨.Open, stream_id, payload⟩, 9 + len)
      else if t_raw = 2 then .ok (⟨.Data, stream_id, payload⟩, 9 + len)
      else if t_raw = 3 then .ok (⟨.Close, stream_id, payload⟩, 9 + len)
      else if t_raw = 4 then .ok (⟨.Reset, stream_id, payload⟩, 9 + len)
      else .error (.UnknownType t_raw)

lemma u32FromLe_toLe (n : Nat) :
    u32FromLe (n % 256) (n / 256 % 256) (n / 65536 % 256) (n / 16777216 % 256) =
      n % 4294967296 := by
  unfold u32FromLe
  omega

lemma encode_length (f : Frame) : f.encode.length = 9 + f.payload.length := by
  simp [Frame.encode, u32ToLe]
  omega

/-- C1: for every frame with a 32-bit stream id and payload no longer than
2^31 bytes, decoding the encoding returns the frame and 9 + |payload|. -/
theorem frame_roundtrip (f : Frame) (hid : f.stream_id < 4294967296)
    (hlen : f.payload.length ≤ 2147483648) :
    Frame.decode f.encode = .ok (f, 9 + f.payload.length) := by
  have hlen32 : f.payload.length % 4294967296 = f.payload.length := by omega
  have hid32 : f.stream_id % 4294967296 = f.stream_id := by omega
  unfold Frame.decode
  rw [encode_length]
  simp only [Frame.encode, u32ToLe, declaredLen]
  simp only [List.append_assoc, List.cons_append, List.nil_append, List.getD_cons_zero,
    List.getD_cons_succ, List.drop_succ_cons, List.drop_zero]
  rw [u32FromLe_toLe, u32FromLe_toLe, hlen32, hid32]
  have hnot : ¬ (9 + f.payload.length < 9) := by omega
  have hnot2 : ¬ (9 + f.payload.length < 9 + f.payload.length) := by omega
  simp only [hnot, if_false, hnot2, List.take_length]
  cases f with
  | mk t sid p =>
    cases t <;> simp [FrameType.toByte]

/-- C1 witness: the round trip evaluated at the concrete frame
(DATA, stream 7, payload [10, 20]). -/
theorem frame_roundtrip_witness :
    Frame.decode (Frame.encode ⟨.Data, 7, [10, 20]⟩) = .ok (⟨.Data, 7, [10, 20]⟩, 11) :=
  frame_roundtrip ⟨.Data, 7, [10, 20]⟩ (by decide) (by decide)

/-- C2 counterexample: a 9-byte buffer whose type byte (offset 4) is 0, not in
{1,2,3,4}, but whose declared payload length (1) exceeds the 0 remaining bytes:
decode returns LengthMismatch, not UnknownType, because the source checks the
length before matching the type byte. -/
theorem decode_unknown_type_counterexample :
    (List.getD [0, 0, 0, 0, 0, 1, 0, 0, 0] 4 0 ≠ 1 ∧
      List.getD [0, 0, 0, 0, 0, 1, 0, 0, 0] 4 0 ≠ 2 ∧
      List.getD [0, 0, 0, 0, 0, 1, 0, 0, 0] 4 0 ≠ 3 ∧
      List.getD [0, 0, 0, 0, 0, 1, 0, 0, 0] 4 0 ≠ 4) ∧
    Frame.decode [0, 0, 0, 0, 0, 1, 0, 0, 0] = .error (.LengthMismatch 1 0) ∧
    Frame.decode [0, 0, 0, 0, 0, 1, 0, 0, 0] ≠ .error (.UnknownType 0) := by
  have h : Frame.decode [0, 0, 0, 0, 0, 1, 0, 0, 0] = .error (.LengthMismatch 1 0) := rfl
  refine ⟨by decide, h, ?_⟩
  rw [h]
  intro hc
  exact absurd (Except.error.inj hc) (by decide)

/-- C2 amended: buffers shorter than 9 bytes are rejected with TooShort; buffers
whose declared payload length exceeds the remaining bytes are rejected with
LengthMismatch; and a type byte outside {1,2,3,4} is rejected with UnknownType
only when the length check already passed (declared length at most the bytes
after the header), since the source checks length before type. -/
theorem decode_rejects_garbage (buf : List Nat) :
    (buf.length < 9 → Frame.decode buf = .error .TooShort) ∧
    (9 ≤ buf.length → buf.length - 9 < declaredLen buf →
      Frame.decode buf = .error (.LengthMismatch (declaredLen buf) (buf.length - 9))) ∧
    (9 ≤ buf.length → declaredLen buf ≤ buf.length - 9 →
      buf.getD 4 0 ≠ 1 → buf.getD 4 0 ≠ 2 → buf.getD 4 0 ≠ 3 → buf.getD 4 0 ≠ 4 →
      Frame.decode buf = .error (.UnknownType (buf.getD 4 0))) := by
  refine ⟨?_, ?_, ?_⟩
  · intro h
    unfold Frame.decode
    simp [h]
  · intro h9 hlen
    unfold Frame.decode
    have hn : ¬ buf.length < 9 := by omega
    have hm : buf.length < 9 + declaredLen buf := by omega
    simp [hn, hm]
  · intro h9 hlen h1 h2 h3 h4
    have hn : ¬ buf.length < 9 := by omega
    have hm : ¬ buf.length < 9 + declaredLen buf := by omega
    simp only [Frame.decode, hn, hm, h1, h2, h3, h4, if_false, ite_false]

/-- C2 amended witness: the three clauses of decode_rejects_garbage evaluated at
concrete buffers: an 8-byte buffer (TooShort), a 9-byte buffer declaring one
payload byte (LengthMismatch 1 0), and a well-sized buffer with type byte 9
(UnknownType 9). -/
theorem decode_rejects_garbage_witness :
    Frame.decode [0, 0, 0, 0, 0, 0, 0, 0] = .error .TooShort ∧
    Frame.decode [0, 0, 0, 0, 0, 1, 0, 0, 0] = .error (.LengthMismatch 1 0) ∧
    Frame.decode [0, 0, 0, 0, 9, 0, 0, 0, 0] = .error (.UnknownType 9) := by
  refine ⟨?_, ?_, ?_⟩
  · exact (decode_rejects_garbage [0, 0, 0, 0, 0, 0, 0, 0]).1 (by decide)
  · exact (decode_rejects_garbage [0, 0, 0, 0, 0, 1, 0, 0, 0]).2.1 (by decide) (by decide)
  · exact (decode_rejects_garbage [0, 0, 0, 0, 9, 0, 0, 0, 0]).2.2 (by decide) (by decide)
      (by decide) (by decide) (by decide) (by decide)

/-- A muxer operation's outcome: either success or the underlying secure
session's write failing (std::io::Error from `self.inner.send`).  No other
error kind exists for the L5 operations in the source; in particular there is
no InvalidState variant. -/
inductive MuxError where
  | ioErr
deriving DecidableEq, Repr

/-- The muxer state visible to the claims: the next local stream id
(`next_stream_id`), the set of registered stream ids (the keys of `streams`,
each key owning an inbox sender), and the accept queue contents
(`incoming_tx`/`incoming_rx`), each entry the stream id and the OPEN payload. -/
structure MuxState where
  nextStreamId : Nat
  streams : List Nat
  accepted : List (Nat × List Nat)
deriving DecidableEq, Repr

/-- HashMap::insert on the key set: the key is added if absent (an existing
entry has its value overwritten, leaving the key set unchanged). -/
def insertId (id : Nat) (l : List Nat) : List Nat :=
  if id ∈ l then l else id :: l

/-- The result of one muxer operation: the returned value or error, the state
after the call, and the frames actually written on the secure session. -/
structure OpResult (α : Type) where
  res : Except MuxError α
  state : MuxState
  sent : List Frame
deriving Repr

/-- `Muxer::new`: ids start at 1 for the initiator, 2 for the responder;
empty stream map and accept queue. -/
def Muxer.new (initiator : Bool) : MuxState :=
  { nextStreamId := if initiator then 1 else 2, streams := [], accepted := [] }

/-- `Muxer::open_stream`: allocate the current id and advance the counter by
`wrapping_add(2)`, register the new inbox in the stream map, then write an
OPEN frame carrying the protocol bytes.  `sendOk` models whether the
underlying `inner.send` succeeds; the id allocation and map insertion happen
before the write either way. -/
def Muxer.open_stream (st : MuxState) (sendOk : Bool) (protocol : List Nat) :
    OpResult Nat :=
  let id := st.nextStreamId
  let st1 : MuxState :=
    { st with
      nextStreamId := (id + 2) % 4294967296,
      streams := insertId id st.streams }
  if sendOk then
    { res := .ok id, state := st1, sent := [⟨.Open, id, protocol⟩] }
  else
    { res := .error .ioErr, state := st1, sent := [] }

/-- `Muxer::send_data`: build a DATA frame from the arguments and write it on
the secure session.  The source performs no lookup of `stream_id` in the
stream map and never rejects the call. -/
def Muxer.send_data (st : MuxState) (sendOk : Bool) (stream_id : Nat)
    (data : List Nat) : OpResult Unit :=
  if sendOk then
    { res := .ok (), state := st, sent := [⟨.Data, stream_id, data⟩] }
  else
    { res := .error .ioErr, state := st, sent := [] }

/-- `Muxer::close_stream`: remove the id from the stream map (a no-op when
absent), then write a CLOSE frame with empty payload. -/
def Muxer.close_stream (st : MuxState) (sendOk : Bool) (stream_id : Nat) :
    OpResult Unit :=
  let st1 : MuxState := { st with streams := st.streams.erase stream_id }
  if sendOk then
    { res := .ok (), state := st1, sent := [⟨.Close, stream_id, []⟩] }
  else
    { res := .error .ioErr, state := st1, sent := [] }

/-- C3 counterexample: on a muxer with an empty stream map (so stream 5 is not
open locally), send_data 5 succeeds and emits a DATA frame, instead of
failing with InvalidState without emitting. -/
theorem send_data_counterexample :
    (5 : Nat) ∉ (Muxer.new true).streams ∧
    (Muxer.new true).streams.erase 5 = (Muxer.new true).streams ∧
    (Muxer.send_data (Muxer.new true) true 5 [1]).res = .ok () ∧
    (Muxer.send_data (Muxer.new true) true 5 [1]).sent = [⟨.Data, 5, [1]⟩] := by
  refine ⟨by decide, rfl, rfl, rfl⟩

/-- C3 amended: send_data never checks the local stream state: for every id,
open or not, it returns Ok and emits exactly one DATA frame whenever the
underlying secure write succeeds; the only possible failure is the underlying
write error, and the muxer state is unchanged either way. -/
theorem send_data_no_state_check (st : MuxState) (id : Nat) (data : List Nat)
    (hnot : id ∉ st.streams) :
    (Muxer.send_data st true id data).res = .ok () ∧
    (Muxer.send_data st true id data).sent = [⟨.Data, id, data⟩] ∧
    (Muxer.send_data st true id data).state = st := by
  exact ⟨rfl, rfl, rfl⟩

/-- C3 amended witness: send_data on never-opened stream 5 of a fresh
initiator muxer returns Ok, emits the DATA frame and leaves the state alone. -/
theorem send_data_no_state_check_witness :
    (Muxer.send_data (Muxer.new true) true 5 [1]).res = .ok () ∧
    (Muxer.send_data (Muxer.new true) true 5 [1]).sent = [⟨.Data, 5, [1]⟩] ∧
    (Muxer.send_data (Muxer.new true) true 5 [1]).state = Muxer.new true :=
  send_data_no_state_check (Muxer.new true) 5 [1] (by decide)

/-- C4 counterexample: on a muxer where stream 1 is open, close_stream 1
twice: the second call returns Ok (not InvalidState), and two CLOSE frames
are emitted in total, not exactly one. -/
theorem close_stream_counterexample :
    (1 : Nat) ∈ ({ nextStreamId := 3, streams := [1], accepted := [] } : MuxState).streams ∧
    (Muxer.close_stream
        (Muxer.close_stream
          { nextStreamId := 3, streams := [1], accepted := [] } true 1).state
        true 1).res = .ok () ∧
    ((Muxer.close_stream
        { nextStreamId := 3, streams := [1], accepted := [] } true 1).sent ++
      (Muxer.close_stream
        (Muxer.close_stream
          { nextStreamId := 3, streams := [1], accepted := [] } true 1).state
        true 1).sent) = [⟨.Close, 1, []⟩, ⟨.Close, 1, []⟩] := by
  refine ⟨by decide, rfl, rfl⟩

/-- C4 amended: close_stream is unconditional: for a muxer where stream id is
open, closing it twice succeeds both times (there is no InvalidState error),
and each call emits its own CLOSE frame, so exactly two CLOSE frames go out
over the two calls. -/
theorem close_stream_not_idempotent (st : MuxState) (id : Nat)
    (hmem : id ∈ st.streams) :
    (Muxer.close_stream st true id).res = .ok () ∧
    (Muxer.close_stream (Muxer.close_stream st true id).state true id).res = .ok () ∧
    ((Muxer.close_stream st true id).sent ++
      (Muxer.close_stream (Muxer.close_stream st true id).state true id).sent) =
      [⟨.Close, id, []⟩, ⟨.Close, id, []⟩] := by
  exact ⟨rfl, rfl, rfl⟩

/-- C4 amended witness: the double close evaluated on the concrete muxer state
with stream 1 open. -/
theorem close_stream_not_idempotent_witness :
    (Muxer.close_stream { nextStreamId := 3, streams := [1], accepted := [] } true 1).res
        = .ok () ∧
    (Muxer.close_stream
        (Muxer.close_stream
          { nextStreamId := 3, streams := [1], accepted := [] } true 1).state
        true 1).res = .ok () ∧
    ((Muxer.close_stream { nextStreamId := 3, streams := [1], accepted := [] } true 1).sent ++
      (Muxer.close_stream
        (Muxer.close_stream
          { nextStreamId := 3, streams := [1], accepted := [] } true 1).state
        true 1).sent) = [⟨.Close, 1, []⟩, ⟨.Close, 1, []⟩] :=
  close_stream_not_idempotent { nextStreamId := 3, streams := [1], accepted := [] } 1
    (by decide)

/-- C10: open_stream is not atomic on error: when the OPEN write on the secure
session fails, the call returns the I/O error, yet the allocated id stays
consumed (the counter has advanced by 2 mod 2^32) and the new inbox stays
registered in the stream map; nothing is rolled back and no frame went out. -/
theorem open_stream_not_atomic (st : MuxState) (protocol : List Nat) :
    (Muxer.open_stream st false protocol).res = .error .ioErr ∧
    (Muxer.open_stream st false protocol).state.nextStreamId =
      (st.nextStreamId + 2) % 4294967296 ∧
    st.nextStreamId ∈ (Muxer.open_stream st false protocol).state.streams ∧
    (Muxer.open_stream st false protocol).sent = [] := by
  refine ⟨rfl, rfl, ?_, rfl⟩
  show st.nextStreamId ∈ insertId st.nextStreamId st.streams
  unfold insertId
  by_cases h : st.nextStreamId ∈ st.streams
  · simp [h]
  · simp [h]

/-- C10 witness: a failing OPEN write on a fresh initiator muxer leaves id 1
consumed and registered while returning the error. -/
theorem open_stream_not_atomic_witness :
    (Muxer.open_stream (Muxer.new true) false [47]).res = .error .ioErr ∧
    (Muxer.open_stream (Muxer.new true) false [47]).state.nextStreamId = 3 ∧
    (1 : Nat) ∈ (Muxer.open_stream (Muxer.new true) false [47]).state.streams ∧
    (Muxer.open_stream (Muxer.new true) false [47]).sent = [] :=
  open_stream_not_atomic (Muxer.new true) [47]

/-- One iteration of `Muxer::reader_loop` on a received record `raw`: decode,
then dispatch.  OPEN inserts the id into the stream map (overwriting any
existing entry) and enqueues (id, payload) on the accept queue; DATA routes
the payload to the inbox if present (no state change on the map); CLOSE and
RESET remove the id.  A decode failure is only logged.  The returned list is
the frames the reader writes in response (the source never writes any), and
the Bool says whether the loop keeps running (it does in every decode
branch; only a recv error breaks the loop). -/
def readerStep (st : MuxState) (raw : List Nat) : MuxState × List Frame × Bool :=
  match Frame.decode raw with
  | .ok (f, _) =>
    match f.t with
    | .Open =>
      ({ st with
          streams := insertId f.stream_id st.streams,
          accepted := st.accepted ++ [(f.stream_id, f.payload)] }, [], true)
    | .Data => (st, [], true)
    | .Close => ({ st with streams := st.streams.erase f.stream_id }, [], true)
    | .Reset => ({ st with streams := st.streams.erase f.stream_id }, [], true)
  | .error _ => (st, [], true)

/-- The reader loop over a list of recv outcomes: `none` is an underlying
recv error (the loop breaks), `some raw` is a received record handled by
readerStep (after which the loop always continues). -/
def readerRun (st : MuxState) : List (Option (List Nat)) → MuxState
  | [] => st
  | none :: _ => st
  | some raw :: rest => readerRun (readerStep st raw).1 rest

/-- C5 counterexample: stream 7 is live locally, and the peer sends OPEN for
id 7 (payload [47]).  The reader does not treat it as a protocol violation:
it emits no RESET, keeps running, re-registers id 7 and enqueues the stream
on the accept queue anyway. -/
theorem reader_open_counterexample :
    (7 : Nat) ∈ ({ nextStreamId := 2, streams := [7], accepted := [] } : MuxState).streams ∧
    Frame.decode [7, 0, 0, 0, 1, 1, 0, 0, 0, 47] = .ok (⟨.Open, 7, [47]⟩, 10) ∧
    readerStep { nextStreamId := 2, streams := [7], accepted := [] }
        [7, 0, 0, 0, 1, 1, 0, 0, 0, 47] =
      ({ nextStreamId := 2, streams := [7], accepted := [(7, [47])] }, [], true) := by
  refine ⟨by decide, rfl, rfl⟩

/-- C5 amended: the reader loop never checks whether an OPEN frame's id
already exists locally: for every state and every record decoding to an OPEN
frame, it writes no RESET (it writes nothing at all), keeps the id registered
in the stream map, appends (id, payload) to the accept queue, and keeps
running, even when the id is already live. -/
theorem reader_open_no_violation_check (st : MuxState) (raw : List Nat)
    (f : Frame) (n : Nat) (hdec : Frame.decode raw = .ok (f, n))
    (ht : f.t = .Open) :
    (readerStep st raw).2.1 = [] ∧
    (readerStep st raw).2.2 = true ∧
    (readerStep st raw).1.streams = insertId f.stream_id st.streams ∧
    (readerStep st raw).1.accepted = st.accepted ++ [(f.stream_id, f.payload)] := by
  simp only [readerStep, hdec, ht]
  exact ⟨trivial, trivial, trivial, trivial⟩

/-- C5 amended witness: the duplicate OPEN for live id 7 evaluated concretely:
no RESET, loop continues, id stays registered, stream enqueued. -/
theorem reader_open_no_violation_check_witness :
    (readerStep { nextStreamId := 2, streams := [7], accepted := [] }
        [7, 0, 0, 0, 1, 1, 0, 0, 0, 47]).2.1 = [] ∧
    (readerStep { nextStreamId := 2, streams := [7], accepted := [] }
        [7, 0, 0, 0, 1, 1, 0, 0, 0, 47]).2.2 = true ∧
    (readerStep { nextStreamId := 2, streams := [7], accepted := [] }
        [7, 0, 0, 0, 1, 1, 0, 0, 0, 47]).1.streams = insertId 7 [7] ∧
    (readerStep { nextStreamId := 2, streams := [7], accepted := [] }
        [7, 0, 0, 0, 1, 1, 0, 0, 0, 47]).1.accepted = [] ++ [(7, [47])] :=
  reader_open_no_violation_check { nextStreamId := 2, streams := [7], accepted := [] }
    [7, 0, 0, 0, 1, 1, 0, 0, 0, 47] ⟨.Open, 7, [47]⟩ 10 rfl rfl

/-- C6 counterexample: a record with unknown type byte 9 fails to decode, yet
the reader keeps the session alive: the state (including the live inbox for
stream 1) is unchanged and the loop continues; a subsequent OPEN record is
still dispatched (id 5 gets registered and enqueued). -/
theorem reader_decode_failure_counterexample :
    Frame.decode [0, 0, 0, 0, 9, 0, 0, 0, 0] = .error (.UnknownType 9) ∧
    readerStep { nextStreamId := 3, streams := [1], accepted := [] }
        [0, 0, 0, 0, 9, 0, 0, 0, 0] =
      ({ nextStreamId := 3, streams := [1], accepted := [] }, [], true) ∧
    readerRun { nextStreamId := 3, streams := [1], accepted := [] }
        [some [0, 0, 0, 0, 9, 0, 0, 0, 0], some [5, 0, 0, 0, 1, 1, 0, 0, 0, 47]] =
      { nextStreamId := 3, streams := [5, 1], accepted := [(5, [47])] } := by
  refine ⟨rfl, rfl, rfl⟩

/-- C6 amended: a frame-decode failure is not fatal: the reader logs it and
continues with the state untouched: for every state and record whose decode
fails, readerStep leaves the state (all live inboxes included) unchanged,
writes nothing, and keeps looping, so subsequent records are still
dispatched. -/
theorem reader_decode_failure_not_fatal (st : MuxState) (raw : List Nat)
    (e : FrameDecodeError) (hdec : Frame.decode raw = .error e) :
    readerStep st raw = (st, [], true) := by
  unfold readerStep
  rw [hdec]

/-- C6 amended witness: the unknown-type record evaluated on a state with a
live stream: the step returns the state unchanged and keeps looping. -/
theorem reader_decode_failure_not_fatal_witness :
    readerStep { nextStreamId := 3, streams := [1], accepted := [] }
        [0, 0, 0, 0, 9, 0, 0, 0, 0] =
      ({ nextStreamId := 3, streams := [1], accepted := [] }, [], true) :=
  reader_decode_failure_not_fatal { nextStreamId := 3, streams := [1], accepted := [] }
    [0, 0, 0, 0, 9, 0, 0, 0, 0] (.UnknownType 9) rfl

/-- The ids returned by k successive successful open_stream calls (empty
protocol name; the payload does not affect allocation). -/
def openIds (st : MuxState) : Nat → List Nat
  | 0 => []
  | k + 1 =>
    let r := Muxer.open_stream st true []
    match r.res with
    | .ok id => id :: openIds r.state k
    | .error _ => []

lemma open_stream_res_ok (st : MuxState) (p : List Nat) :
    (Muxer.open_stream st true p).res = .ok st.nextStreamId := rfl

lemma open_stream_next (st : MuxState) (p : List Nat) :
    (Muxer.open_stream st true p).state.nextStreamId =
      (st.nextStreamId + 2) % 4294967296 := rfl

lemma openIds_succ (st : MuxState) (k : Nat) :
    openIds st (k + 1) =
      st.nextStreamId :: openIds (Muxer.open_stream st true []).state k := rfl

/-- Closed form of the allocator: the i-th id handed out is
(start + 2 * i) mod 2^32. -/
lemma openIds_get (st : MuxState) (hlt : st.nextStreamId < 4294967296) :
    ∀ k i, i < k →
      (openIds st k).get? i = some ((st.nextStreamId + 2 * i) % 4294967296) := by
  intro k
  induction k generalizing st with
  | zero => intro i hi; omega
  | succ n ih =>
    intro i hi
    rw [openIds_succ]
    cases i with
    | zero =>
      simp [List.get?]
      omega
    | succ j =>
      simp only [List.get?]
      rw [ih _ (Nat.mod_lt _ (by norm_num)) j (by omega), open_stream_next]
      congr 1
      omega

/-- C7 counterexample: on a fresh initiator muxer the 0-th and the 2^31-th
open_stream calls both return id 1: after 2^31 allocations the wrapping
counter silently reuses an id the local side has already used (and id 1 may
still be live). -/
theorem fresh_id_reuse_counterexample :
    (openIds (Muxer.new true) (2147483648 + 1)).get? 0 = some 1 ∧
    (openIds (Muxer.new true) (2147483648 + 1)).get? 2147483648 = some 1 ∧
    (0 : Nat) ≠ 2147483648 := by
  have h0 := openIds_get (Muxer.new true) (by norm_num [Muxer.new])
    (2147483648 + 1) 0 (by norm_num)
  have h1 := openIds_get (Muxer.new true) (by norm_num [Muxer.new])
    (2147483648 + 1) 2147483648 (by norm_num)
  refine ⟨?_, ?_, by norm_num⟩
  · rw [h0]; norm_num [Muxer.new]
  · rw [h1]; norm_num [Muxer.new]

/-- C7 amended: freshly allocated ids are distinct only within the first 2^31
open_stream calls: for i < j < 2^31 the i-th and j-th allocated ids differ,
but the counter wraps after 2^31 allocations and silently reuses earlier ids;
no high-water mark is kept and the session is not aborted. -/
theorem fresh_ids_distinct_before_wrap (st : MuxState) (k i j : Nat)
    (hst : st.nextStreamId < 4294967296) (hij : i < j) (hj : j < 2147483648)
    (hk : j < k) :
    (openIds st k).get? i ≠ (openIds st k).get? j := by
  rw [openIds_get st hst k i (by omega), openIds_get st hst k j hk]
  intro h
  have h2 := Option.some.inj h
  omega

/-- C7 amended witness: the first two ids handed out by a fresh initiator
muxer (1 and 3) differ. -/
theorem fresh_ids_distinct_before_wrap_witness :
    (openIds (Muxer.new true) 2).get? 0 ≠ (openIds (Muxer.new true) 2).get? 1 :=
  fresh_ids_distinct_before_wrap (Muxer.new true) 2 0 1 (by norm_num [Muxer.new])
    (by norm_num) (by norm_num) (by norm_num)

lemma openIds_parity (st : MuxState) (hlt : st.nextStreamId < 4294967296) :
    ∀ k id, id ∈ openIds st k → id % 2 = st.nextStreamId % 2 := by
  intro k
  induction k generalizing st with
  | zero => intro id h; simp [openIds] at h
  | succ n ih =>
    intro id h
    rw [openIds_succ] at h
    rcases List.mem_cons.mp h with rfl | h
    · rfl
    · have := ih _ (Nat.mod_lt _ (by norm_num)) id h
      rw [open_stream_next] at this
      omega

/-- C8: every stream id returned by open_stream on an initiator muxer is odd,
and every one returned on a responder muxer is even; the step of 2 with u32
wrap-around preserves the starting parity (1 or 2) forever. -/
theorem stream_id_parity (k id : Nat) :
    (id ∈ openIds (Muxer.new true) k → id % 2 = 1) ∧
    (id ∈ openIds (Muxer.new false) k → id % 2 = 0) := by
  constructor
  · intro h
    have := openIds_parity (Muxer.new true) (by norm_num [Muxer.new]) k id h
    simpa [Muxer.new] using this
  · intro h
    have := openIds_parity (Muxer.new false) (by norm_num [Muxer.new]) k id h
    simpa [Muxer.new] using this

/-- C8 witness: the sole id of one open on each side: the initiator's first id
1 is odd, the responder's first id 2 is even. -/
theorem stream_id_parity_witness :
    (1 : Nat) % 2 = 1 ∧ (2 : Nat) % 2 = 0 :=
  ⟨(stream_id_parity 1 1).1 (by decide),
   (stream_id_parity 1 2).2 (by decide)⟩

/-- Per-record AEAD overhead of the Noise transport (ChaChaPoly tag). -/
def noiseTagLen : Nat := 16

/-- Maximum Noise message (record) size from the Noise Protocol Framework. -/
def noiseMaxRecordLen : Nat := 65535

/-- The fixed stack buffer `EncryptedStream::send` encrypts into:
`let mut buf = [0u8; 4096]` in src/common/src/lib.rs. -/
def sendBufSize : Nat := 4096

/-- Modelled from the spec: the snow crate's `TransportState::write_message`
(the crate itself is not part of src/): encrypting a plaintext of msgLen
bytes produces a record of msgLen + 16 bytes (the Noise per-record overhead
the spec names), fails when the record would not fit in the supplied output
buffer, and fails beyond the Noise maximum record size of 65535 bytes.
Returns the record length on success. -/
def noiseWriteMessage (msgLen bufLen : Nat) : Option Nat :=
  if msgLen + noiseTagLen ≤ bufLen ∧ msgLen + noiseTagLen ≤ noiseMaxRecordLen then
    some (msgLen + noiseTagLen)
  else
    none

/-- `EncryptedStream::send` on a plaintext of msgLen bytes: encrypt into the
4096-byte stack buffer; on success `buf[..len]` is written as one contiguous
unit (one write_all call) of the returned length; on encryption failure the
error is returned and nothing is written. -/
def EncryptedStream.sendRecordLen (msgLen : Nat) : Option Nat :=
  noiseWriteMessage msgLen sendBufSize

/-- C9 counterexample: a plaintext of 4081 bytes is within the spec's limit of
65535 minus the 16-byte Noise overhead, yet EncryptedStream::send fails on
it: the ciphertext (4097 bytes) does not fit the fixed 4096-byte encryption
buffer. -/
theorem send_max_plaintext_counterexample :
    4081 ≤ noiseMaxRecordLen - noiseTagLen ∧
    EncryptedStream.sendRecordLen 4081 = none := by
  constructor
  · decide
  · rfl

/-- C9 amended: send accepts a plaintext and writes it as one Noise record of
msgLen + 16 bytes exactly when the plaintext is at most 4080 bytes (the
4096-byte stack buffer minus the 16-byte Noise overhead); every longer
plaintext fails, even far below the Noise record maximum of 65535. -/
theorem send_accepts_up_to_buffer (msgLen : Nat) :
    (msgLen ≤ 4080 → EncryptedStream.sendRecordLen msgLen = some (msgLen + 16)) ∧
    (4080 < msgLen → EncryptedStream.sendRecordLen msgLen = none) := by
  constructor
  · intro h
    unfold EncryptedStream.sendRecordLen noiseWriteMessage
    have hc : msgLen + noiseTagLen ≤ sendBufSize ∧ msgLen + noiseTagLen ≤ noiseMaxRecordLen := by
      unfold noiseTagLen sendBufSize noiseMaxRecordLen
      omega
    rw [if_pos hc]
    rfl
  · intro h
    unfold EncryptedStream.sendRecordLen noiseWriteMessage
    have hc : ¬ (msgLen + noiseTagLen ≤ sendBufSize ∧ msgLen + noiseTagLen ≤ noiseMaxRecordLen) := by
      unfold noiseTagLen sendBufSize noiseMaxRecordLen
      omega
    rw [if_neg hc]

/-- C9 amended witness: a 4080-byte plaintext is sent as a 4096-byte record;
a 4081-byte plaintext fails. -/
theorem send_accepts_up_to_buffer_witness :
    EncryptedStream.sendRecordLen 4080 = some 4096 ∧
    EncryptedStream.sendRecordLen 4081 = none :=
  ⟨(send_accepts_up_to_buffer 4080).1 (by decide),
   (send_accepts_up_to_buffer 4081).2 (by decide)⟩
